import Mathlib

/-!
Lifecycle orchestrator of `pkg/crc/machine/machine.go`

A shallow embedding of `Start`, `Stop`, `PowerOff`, `Delete` and their helpers
(`existVM`, `createHost`, `getDriverOptions`, `setMachineLogging`,
`unsetMachineLogging`).

Everything the orchestrator calls outside of `machine.go` (the libmachine
registry client, the driver behind a host handle, the bundle resolver, the
file system, the network discoverer, the DNS hooks, the in-guest systemd
commander) is a field of `World`.  Every such call is recorded, together with
the answer it got, as an `Event`; a run of an operation is the pair of its
`Outcome` and the chronological list of events.  An answer may depend on the
whole history of earlier calls and answers, so a `World` stands for an
arbitrary (deterministic) behaviour of the collaborators.

Go specifics that are kept:
* an `error` is identified with its message text, `nil` is `none`;
* a pointer that may be `nil` is an `Option`; using a `nil` pointer panics;
* `defer`red calls run when the function returns or panics, not when the
  process exits;
* `:=` inside a block declares a new `err`, so the `err` returned at the end
  of `Start` is the function-level one.

The `logging.InfoF` / `logging.ErrorF` message calls are left out: they
neither return a value nor influence control flow.
-/

namespace Machine

/-- Go `error` value, identified with the text returned by its `Error()` method. -/
abbrev GoError := String

/-- The `state.State` enumeration of libmachine. -/
inductive State where
  | None
  | Running
  | Paused
  | Saved
  | Stopped
  | Stopping
  | Starting
  | Error
  | Timeout
deriving DecidableEq, Repr

/-- The `String()` method of `state.State`. -/
def State.String : State → String
  | .None => ""
  | .Running => "Running"
  | .Paused => "Paused"
  | .Saved => "Saved"
  | .Stopped => "Stopped"
  | .Stopping => "Stopping"
  | .Starting => "Starting"
  | .Error => "Error"
  | .Timeout => "Timeout"

/-- A non-nil `*host.Host`: the registry handle of one VM; `host.Driver` is the
driver bound to it, so driver calls are recorded against the handle. -/
structure Host where
  id : Nat
deriving DecidableEq, Repr

/-- The `StartConfig` fields read by `Start`. -/
structure StartConfig where
  Name : String
  BundlePath : String
  VMDriver : String
  Memory : Nat
  CPUs : Nat
  Debug : Bool
deriving DecidableEq, Repr

/-- The `config.MachineConfig` record. -/
structure MachineConfig where
  Name : String
  BundlePath : String
  VMDriver : String
  CPUs : Nat
  Memory : Nat
  DiskPathURL : String := ""
  SSHKeyPath : String := ""
deriving DecidableEq, Repr

/-- One entry of `Storage.DiskImages`. -/
structure DiskImage where
  Name : String
deriving DecidableEq, Repr

/-- The `Storage` part of the bundle metadata. -/
structure Storage where
  DiskImages : List DiskImage
deriving DecidableEq, Repr

/-- The `ClusterInfo` part of the bundle metadata. -/
structure ClusterInfo where
  SSHPrivateKeyFile : String
  KubeConfig : String
  KubeadminPasswordFile : String
deriving DecidableEq, Repr

/-- The bundle metadata (`*bundle.CrcBundleInfo`), as far as `Start` reads it. -/
structure CrcBundleInfo where
  Storage : Storage
  ClusterInfo : ClusterInfo
deriving DecidableEq, Repr

/-- The capability descriptor returned by `getDriverInfo`; `Start` reads only
`UseDNSService`. -/
structure MachineDriver where
  Driver : String
  UseDNSService : Bool
deriving DecidableEq, Repr

/-- The `ClusterConfig` record; its default is Go's zero value. -/
structure ClusterConfig where
  KubeConfig : String := ""
  KubeAdminPass : String := ""
  ClusterAPI : String := ""
deriving DecidableEq, Repr

/-- The `StartResult` record; the defaults are Go's zero values. -/
structure StartResult where
  Name : String
  Status : String := ""
  Error : String := ""
  ClusterConfig : ClusterConfig := {}
  KubeletStarted : Bool := false
deriving DecidableEq, Repr

/-- The `StopConfig` fields read by `Stop`. -/
structure StopConfig where
  Name : String
  Debug : Bool
deriving DecidableEq, Repr

/-- The `StopResult` record; the defaults are Go's zero values. -/
structure StopResult where
  Name : String
  Success : Bool := false
  State : State := State.None
  Error : String := ""
deriving DecidableEq, Repr

/-- The `PowerOffConfig` fields read by `PowerOff`. -/
structure PowerOffConfig where
  Name : String
deriving DecidableEq, Repr

/-- The `PowerOffResult` record; the defaults are Go's zero values. -/
structure PowerOffResult where
  Name : String
  Success : Bool := false
  Error : String := ""
deriving DecidableEq, Repr

/-- The `DeleteConfig` fields read by `Delete`. -/
structure DeleteConfig where
  Name : String
deriving DecidableEq, Repr

/-- The `DeleteResult` record; the defaults are Go's zero values. -/
structure DeleteResult where
  Name : String
  Success : Bool := false
  Error : String := ""
deriving DecidableEq, Repr

/-- The value built by `getDriverOptions`: the result of `libvirt.CreateHost`
or of `virtualbox.CreateHost` on the machine configuration. -/
inductive DriverOptions where
  | libvirt (machineConfig : MachineConfig)
  | virtualbox (machineConfig : MachineConfig)
deriving DecidableEq, Repr

/-- The `services.ServicePreStartConfig` record. -/
structure ServicePreStartConfig where
  Name : String
  BundleMetadata : CrcBundleInfo
deriving DecidableEq, Repr

/-- The `services.ServicePostStartConfig` record. -/
structure ServicePostStartConfig where
  Name : String
  Driver : Host
  IP : String
  HostIP : String
  BundleMetadata : CrcBundleInfo
deriving DecidableEq, Repr

/-- One call made to a collaborator, with its arguments and the answer it got. -/
inductive Event where
  | logSetDebug (enabled : Bool)
  | closeLogFile
  | openLogfile (err : Option GoError)
  | logSetOutWriter
  | logSetErrWriter
  | initLogrus
  | newClient
  | clientClose
  | getCrcBundleInfo (machineConfig : MachineConfig)
      (res : Option CrcBundleInfo × String × Option GoError)
  | readFile (path : String) (res : String × Option GoError)
  | dnsRunPreStart (cfg : ServicePreStartConfig)
  | dnsRunPostStart (cfg : ServicePostStartConfig)
  | apiExists (name : String) (res : Bool × Option GoError)
  | apiNewHost (driverName : String) (rawDriver : String) (res : Option Host × Option GoError)
  | apiCreate (vm : Option Host) (err : Option GoError)
  | apiLoad (name : String) (res : Option Host × Option GoError)
  | apiSave (h : Host) (err : Option GoError)
  | apiRemove (name : String) (err : Option GoError)
  | driverGetState (h : Host) (res : State × Option GoError)
  | driverStart (h : Host) (err : Option GoError)
  | driverGetIP (h : Host) (res : String × Option GoError)
  | driverRemove (h : Host) (err : Option GoError)
  | hostStop (h : Host) (err : Option GoError)
  | hostKill (h : Host) (err : Option GoError)
  | determineHostIP (instanceIP : String) (res : String × Option GoError)
  | systemdStart (h : Host) (unit : String) (res : Bool × Option GoError)
  | sleepMinutes (n : Nat)
deriving DecidableEq, Repr

instance : Inhabited Event := ⟨Event.closeLogFile⟩

instance : Inhabited Host := ⟨⟨0⟩⟩

instance : Inhabited State := ⟨State.None⟩

/-- The collaborators of the orchestrator.  The first argument of every
effectful field is the history of events so far. -/
structure World where
  /-- The constant `constants.DefaultWebConsoleURL`. -/
  DefaultWebConsoleURL : String
  /-- The function `filepath.Join` on two elements. -/
  filepathJoin : String → String → String
  /-- The function `json.Marshal` on the driver options (its error is dropped by `createHost`). -/
  jsonMarshal : DriverOptions → String
  /-- The function `getDriverInfo` of the package (its error is dropped by `Start`);
  `none` is a nil descriptor. -/
  getDriverInfo : String → Option MachineDriver
  openLogfile : List Event → Option GoError
  getCrcBundleInfo : List Event → MachineConfig → Option CrcBundleInfo × String × Option GoError
  readFile : List Event → String → String × Option GoError
  apiExists : List Event → String → Bool × Option GoError
  apiNewHost : List Event → String → String → Option Host × Option GoError
  apiCreate : List Event → Option Host → Option GoError
  apiLoad : List Event → String → Option Host × Option GoError
  apiSave : List Event → Host → Option GoError
  apiRemove : List Event → String → Option GoError
  driverGetState : List Event → Host → State × Option GoError
  driverStart : List Event → Host → Option GoError
  driverGetIP : List Event → Host → String × Option GoError
  driverRemove : List Event → Host → Option GoError
  hostStop : List Event → Host → Option GoError
  hostKill : List Event → Host → Option GoError
  determineHostIP : List Event → String → String × Option GoError
  systemdStart : List Event → Host → String → Bool × Option GoError

/-- How a Go function call ends: it returns, it panics, or the process exits. -/
inductive Outcome (α : Type) where
  | returned (a : α)
  | panicked (msg : String)
  | exited (code : Nat) (msg : String)
deriving DecidableEq, Repr

/-- A computation that extends the history of events and ends in an `Outcome`. -/
def Exec (α : Type) : Type := List Event → Outcome α × List Event

/-- Return a value without calling anything. -/
def Exec.pure {α : Type} (a : α) : Exec α := fun tr => (.returned a, tr)

/-- Sequencing: a panic or an exit of the first part ends the whole. -/
def Exec.bind {α β : Type} (x : Exec α) (f : α → Exec β) : Exec β := fun tr =>
  match x tr with
  | (.returned a, tr1) => f a tr1
  | (.panicked m, tr1) => (.panicked m, tr1)
  | (.exited c m, tr1) => (.exited c m, tr1)

instance : Monad Exec where
  pure := Exec.pure
  bind := Exec.bind

/-- Call a collaborator: ask the world, given the history, and record the event. -/
def call {ρ : Type} (ask : List Event → ρ) (mk : ρ → Event) : Exec ρ := fun tr =>
  (.returned (ask tr), tr ++ [mk (ask tr)])

/-- A call without an answer. -/
def emit (e : Event) : Exec Unit := fun tr => (.returned (), tr ++ [e])

/-- A run-time panic. -/
def goPanic {α : Type} (msg : String) : Exec α := fun tr => (.panicked msg, tr)

/-- Dereference a pointer: a nil pointer panics. -/
def deref {α : Type} (p : Option α) : Exec α :=
  match p with
  | some a => Exec.pure a
  | none => goPanic "invalid memory address or nil pointer dereference"

/-- Index a slice at 0: an empty slice panics. -/
def index0 {α : Type} (xs : List α) : Exec α :=
  match xs with
  | a :: _ => Exec.pure a
  | [] => goPanic "index out of range"

/-- Go's `defer`: the deferred call runs after the body returned or panicked;
an exit of the process skips it. -/
def withDefer {α : Type} (deferred : Exec Unit) (body : Exec α) : Exec α := fun tr =>
  match body tr with
  | (.exited c m, tr1) => (.exited c m, tr1)
  | (out, tr1) => (out, (deferred tr1).2)

/-- The run of an operation from an empty history. -/
def run {α : Type} (x : Exec α) : Outcome α × List Event := x []

/-- The events of a run. -/
def trace {α : Type} (x : Exec α) : List Event := (run x).2

/-- The outcome of a run. -/
def outcome {α : Type} (x : Exec α) : Outcome α := (run x).1

/-- Modelled from the spec: `errors.NewF` of `pkg/crc/errors` (not among the
sources) builds an error from a format and the text of the wrapped error. -/
def NewF (fmt : String) (err : GoError) : GoError := fmt ++ err

/-- Modelled from the spec: `errors.ExitWithMessage` of `pkg/crc/errors` (not
among the sources) reports the message and stops the process with the code. -/
def ExitWithMessage {α : Type} (code : Nat) (msg : String) : Exec α :=
  fun tr => (.exited code msg, tr)

/-- Modelled from the spec: `errors.MultiError` of `pkg/crc/errors` (not among
the sources), the multi-error aggregation value: an ordered collection of the
failures collected so far. -/
structure MultiError where
  Errors : List GoError := []
deriving DecidableEq, Repr

/-- Modelled from the spec: `MultiError.Collect` keeps a failure and ignores a
nil outcome, so that the aggregate is non-empty only if a step failed. -/
def MultiError.Collect (m : MultiError) (err : Option GoError) : MultiError :=
  match err with
  | some e => { Errors := m.Errors ++ [e] }
  | none => m

/-- Modelled from the spec: `MultiError.ToError` exposes the collection as a
single combined failure only when it is non-empty; the combined text is the
collected texts in order, one per line. -/
def MultiError.ToError (m : MultiError) : Option GoError :=
  if m.Errors.isEmpty then none else some (String.intercalate "\n" m.Errors)

/-- The text `err.Error()` of an error; it is only read where `err != nil`. -/
def errorText (err : Option GoError) : String :=
  match err with
  | some e => e
  | none => ""

/-- The pattern `if err != nil \x7b result.Error = err.Error() \x7d` of `Start`. -/
def recordError (result : StartResult) (err : Option GoError) : StartResult :=
  if err.isSome then { result with Error := errorText err } else result

/-- The function `setMachineLogging`; the final `return nil` is written at the end
of both branches. -/
def setMachineLogging (w : World) (logs : Bool) : Exec (Option GoError) := do
  if !logs then
    emit (.logSetDebug true)
    emit .closeLogFile
    let err ← call w.openLogfile Event.openLogfile
    if err.isSome then
      return err
    emit .logSetOutWriter
    emit .logSetErrWriter
    return none
  else
    emit (.logSetDebug true)
    return none

/-- The function `unsetMachineLogging`. -/
def unsetMachineLogging : Exec Unit := do
  emit .closeLogFile
  emit .initLogrus

/-- The function `existVM`. -/
def existVM (w : World) (machineConfig : MachineConfig) : Exec (Bool × Option GoError) := do
  let (found, err) ← call (fun tr => w.apiExists tr machineConfig.Name)
    (Event.apiExists machineConfig.Name)
  if err.isSome then
    return (false, some (NewF "Error checking if the host exists: " (errorText err)))
  return (found, none)

/-- The function `getDriverOptions`. -/
def getDriverOptions (machineConfig : MachineConfig) : Exec DriverOptions :=
  if machineConfig.VMDriver = "libvirt" then
    Exec.pure (DriverOptions.libvirt machineConfig)
  else if machineConfig.VMDriver = "virtualbox" then
    Exec.pure (DriverOptions.virtualbox machineConfig)
  else
    ExitWithMessage 1 ("Unsupported driver: " ++ machineConfig.VMDriver)

/-- The function `createHost`. -/
def createHost (w : World) (machineConfig : MachineConfig) : Exec (Option Host × Option GoError) := do
  let driverOptions ← getDriverOptions machineConfig
  let jsonDriverConfig := w.jsonMarshal driverOptions
  let (vm, err) ← call (fun tr => w.apiNewHost tr machineConfig.VMDriver jsonDriverConfig)
    (Event.apiNewHost machineConfig.VMDriver jsonDriverConfig)
  if err.isSome then
    return (none, some (NewF "Error creating new host: " (errorText err)))
  let err ← call (fun tr => w.apiCreate tr vm) (Event.apiCreate vm)
  if err.isSome then
    return (none, some (NewF "Error creating the VM. " (errorText err)))
  return (vm, none)

/-- The function `Start`. -/
def Start (w : World) (startConfig : StartConfig) : Exec (StartResult × Option GoError) :=
  withDefer unsetMachineLogging do
    let result0 : StartResult := { Name := startConfig.Name }
    let err ← setMachineLogging w startConfig.Debug
    if err.isSome then
      return (result0, err)
    emit .newClient
    withDefer (emit .clientClose) do
      let mut result := result0
      let mut machineConfig : MachineConfig :=
        { Name := startConfig.Name, BundlePath := startConfig.BundlePath,
          VMDriver := startConfig.VMDriver, CPUs := startConfig.CPUs,
          Memory := startConfig.Memory }
      let (crcBundleMetadata, extractedPath, err) ←
        call (fun tr => w.getCrcBundleInfo tr machineConfig) (Event.getCrcBundleInfo machineConfig)
      if err.isSome then
        result := { result with Error := errorText err }
        return (result, err)
      let metadata ← deref crcBundleMetadata
      let image0 ← index0 metadata.Storage.DiskImages
      let diskPath := w.filepathJoin extractedPath image0.Name
      machineConfig := { machineConfig with DiskPathURL := "file://" ++ diskPath }
      machineConfig := { machineConfig with
        SSHKeyPath := w.filepathJoin extractedPath metadata.ClusterInfo.SSHPrivateKeyFile }
      let passwordPath := w.filepathJoin extractedPath metadata.ClusterInfo.KubeadminPasswordFile
      let (kubeadminPassword, err) ←
        call (fun tr => w.readFile tr passwordPath) (Event.readFile passwordPath)
      if err.isSome then
        result := { result with Error := errorText err }
        return (result, err)
      let clusterConfig : ClusterConfig :=
        { KubeConfig := w.filepathJoin extractedPath metadata.ClusterInfo.KubeConfig,
          KubeAdminPass := kubeadminPassword,
          ClusterAPI := w.DefaultWebConsoleURL }
      result := { result with ClusterConfig := clusterConfig }
      let driverInfo ← deref (w.getDriverInfo startConfig.VMDriver)
      (if driverInfo.UseDNSService then
        emit (.dnsRunPreStart { Name := startConfig.Name, BundleMetadata := metadata })
      else Exec.pure ())
      let (found, _) ← existVM w machineConfig
      result ← (if !found then do
        let (host, err) ← createHost w machineConfig
        let result1 := recordError result err
        let h ← deref host
        let (vmState, err) ← call (fun tr => w.driverGetState tr h) (Event.driverGetState h)
        let result2 := recordError result1 err
        Exec.pure { result2 with Status := vmState.String }
      else do
        let (host, _) ← call (fun tr => w.apiLoad tr machineConfig.Name)
          (Event.apiLoad machineConfig.Name)
        let h ← deref host
        let (s, err) ← call (fun tr => w.driverGetState tr h) (Event.driverGetState h)
        let result1 := recordError result err
        let result3 ← (if s ≠ State.Running then do
          let err ← call (fun tr => w.driverStart tr h) (Event.driverStart h)
          let result2 := recordError result1 err
          let err ← call (fun tr => w.apiSave tr h) (Event.apiSave h)
          Exec.pure (recordError result2 err)
        else Exec.pure result1)
        let (vmState, err) ← call (fun tr => w.driverGetState tr h) (Event.driverGetState h)
        let result4 := recordError result3 err
        Exec.pure { result4 with Status := vmState.String })
      let (host, _) ← call (fun tr => w.apiLoad tr machineConfig.Name)
        (Event.apiLoad machineConfig.Name)
      let h ← deref host
      let (instanceIP, err) ← call (fun tr => w.driverGetIP tr h) (Event.driverGetIP h)
      if err.isSome then
        result := { result with Error := errorText err }
        return (result, err)
      let (hostIP, err) ← call (fun tr => w.determineHostIP tr instanceIP)
        (Event.determineHostIP instanceIP)
      if err.isSome then
        result := { result with Error := errorText err }
        return (result, err)
      (if driverInfo.UseDNSService then
        emit (.dnsRunPostStart { Name := startConfig.Name, Driver := h, IP := instanceIP,
                                 HostIP := hostIP, BundleMetadata := metadata })
      else Exec.pure ())
      let (kubeletStarted, err) ← call (fun tr => w.systemdStart tr h "kubelet")
        (Event.systemdStart h "kubelet")
      result := recordError result err
      result := { result with KubeletStarted := kubeletStarted }
      (if result.Error = "" then
        emit (.sleepMinutes 3)
      else Exec.pure ())
      return (result, err)

/-- The function `Stop`. -/
def Stop (w : World) (stopConfig : StopConfig) : Exec (StopResult × Option GoError) :=
  withDefer unsetMachineLogging do
    let mut result : StopResult := { Name := stopConfig.Name }
    let err ← setMachineLogging w stopConfig.Debug
    if err.isSome then
      return (result, err)
    emit .newClient
    let (host, err) ← call (fun tr => w.apiLoad tr stopConfig.Name) (Event.apiLoad stopConfig.Name)
    if err.isSome then
      result := { result with Success := false }
      result := { result with Error := errorText err }
      return (result, err)
    let h ← deref host
    let (st, _) ← call (fun tr => w.driverGetState tr h) (Event.driverGetState h)
    result := { result with State := st }
    let err ← call (fun tr => w.hostStop tr h) (Event.hostStop h)
    if err.isSome then
      result := { result with Success := false }
      result := { result with Error := errorText err }
      return (result, err)
    result := { result with Success := true }
    return (result, none)

/-- The function `PowerOff`. -/
def PowerOff (w : World) (powerOff : PowerOffConfig) : Exec (PowerOffResult × Option GoError) := do
  let mut result : PowerOffResult := { Name := powerOff.Name }
  emit .newClient
  let (host, err) ← call (fun tr => w.apiLoad tr powerOff.Name) (Event.apiLoad powerOff.Name)
  if err.isSome then
    result := { result with Success := false }
    result := { result with Error := errorText err }
    return (result, err)
  let h ← deref host
  let err ← call (fun tr => w.hostKill tr h) (Event.hostKill h)
  if err.isSome then
    result := { result with Success := false }
    result := { result with Error := errorText err }
    return (result, err)
  result := { result with Success := true }
  return (result, none)

/-- The function `Delete`. -/
def Delete (w : World) (deleteConfig : DeleteConfig) : Exec (DeleteResult × Option GoError) := do
  let mut result : DeleteResult := { Name := deleteConfig.Name, Success := true }
  emit .newClient
  let (host, err) ← call (fun tr => w.apiLoad tr deleteConfig.Name) (Event.apiLoad deleteConfig.Name)
  if err.isSome then
    result := { result with Success := false }
    result := { result with Error := errorText err }
    return (result, err)
  let mut m : MultiError := {}
  let h ← deref host
  m := m.Collect (← call (fun tr => w.driverRemove tr h) (Event.driverRemove h))
  m := m.Collect (← call (fun tr => w.apiRemove tr deleteConfig.Name)
    (Event.apiRemove deleteConfig.Name))
  if m.Errors.length ≠ 0 then
    result := { result with Success := false }
    let aggregated ← deref m.ToError
    result := { result with Error := aggregated }
    return (result, m.ToError)
  return (result, none)

/-! ## Classes of events -/

/-- The DNS hooks `dns.RunPreStart` and `dns.RunPostStart`. -/
def Event.isDnsHook : Event → Bool
  | .dnsRunPreStart _ => true
  | .dnsRunPostStart _ => true
  | _ => false

/-- The calls to the registry (the libmachine API client) made for a VM. -/
def Event.isRegistryCall : Event → Bool
  | .apiExists _ _ => true
  | .apiNewHost _ _ _ => true
  | .apiCreate _ _ => true
  | .apiLoad _ _ => true
  | .apiSave _ _ => true
  | .apiRemove _ _ => true
  | _ => false

/-- The calls that reach the driver behind a host handle. -/
def Event.isDriverCall : Event → Bool
  | .driverGetState _ _ => true
  | .driverStart _ _ => true
  | .driverGetIP _ _ => true
  | .driverRemove _ _ => true
  | .hostStop _ _ => true
  | .hostKill _ _ => true
  | .systemdStart _ _ _ => true
  | _ => false

/-- The bundle resolution `bundle.GetCrcBundleInfo`. -/
def Event.isBundleResolution : Event → Bool
  | .getCrcBundleInfo _ _ => true
  | _ => false

/-- The file read `ioutil.ReadFile`. -/
def Event.isFileRead : Event → Bool
  | .readFile _ _ => true
  | _ => false

/-- The calls that start or stop the VM through its driver. -/
def Event.isDriverStartStop : Event → Bool
  | .driverStart _ _ => true
  | .hostStop _ _ => true
  | .hostKill _ _ => true
  | _ => false

/-- The existence check, the registry creation calls and the driver start. -/
def Event.isCheckCreateStart : Event → Bool
  | .apiExists _ _ => true
  | .apiNewHost _ _ _ => true
  | .apiCreate _ _ => true
  | .driverStart _ _ => true
  | _ => false

/-- The in-guest activation of the kubelet service that returned no error. -/
def Event.isKubeletStarted : Event → Bool
  | .systemdStart _ unit (_, none) => unit == "kubelet"
  | _ => false

/-- The registry call `NewHost` for the driver `d`. -/
def Event.isNewHostFor (d : String) : Event → Bool
  | .apiNewHost driverName _ _ => driverName == d
  | _ => false

/-- The registry call `Save`. -/
def Event.isSave : Event → Bool
  | .apiSave _ _ => true
  | _ => false

/-- The answer of a driver state query, if the event is one. -/
def Event.stateAnswer : Event → Option (State × Option GoError)
  | .driverGetState _ res => some res
  | _ => none

/-- The answer of the first driver state query of a history. -/
def firstStateAnswer (tr : List Event) : Option (State × Option GoError) :=
  tr.findSome? Event.stateAnswer

/-! ## Sample worlds -/

/-- A bundle with one disk image. -/
def sampleBundle : CrcBundleInfo :=
  { Storage := { DiskImages := [{ Name := "crc.qcow2" }] },
    ClusterInfo := { SSHPrivateKeyFile := "id_rsa", KubeConfig := "kubeconfig",
                     KubeadminPasswordFile := "kubeadmin-password" } }

/-- A world in which every call succeeds, the VM exists and is running, and
only the two supported drivers have a capability descriptor. -/
def calmWorld : World where
  DefaultWebConsoleURL := "https://console"
  filepathJoin := fun a b => a ++ "/" ++ b
  jsonMarshal := fun o =>
    match o with
    | .libvirt mc => "libvirt:" ++ mc.Name
    | .virtualbox mc => "virtualbox:" ++ mc.Name
  getDriverInfo := fun d =>
    if d = "libvirt" then some { Driver := d, UseDNSService := true }
    else if d = "virtualbox" then some { Driver := d, UseDNSService := false }
    else none
  openLogfile := fun _ => none
  getCrcBundleInfo := fun _ _ => (some sampleBundle, "/b", none)
  readFile := fun _ _ => ("secret", none)
  apiExists := fun _ _ => (true, none)
  apiNewHost := fun _ _ _ => (some ⟨1⟩, none)
  apiCreate := fun _ _ => none
  apiLoad := fun _ _ => (some ⟨1⟩, none)
  apiSave := fun _ _ => none
  apiRemove := fun _ _ => none
  driverGetState := fun _ _ => (State.Running, none)
  driverStart := fun _ _ => none
  driverGetIP := fun _ _ => ("192.168.130.11", none)
  driverRemove := fun _ _ => none
  hostStop := fun _ _ => none
  hostKill := fun _ _ => none
  determineHostIP := fun _ _ => ("192.168.130.1", none)
  systemdStart := fun _ _ _ => (true, none)

/-- The calm world with a capability descriptor (no DNS service) for every
driver name. -/
def lenientWorld : World :=
  { calmWorld with
    getDriverInfo := fun d => some { Driver := d, UseDNSService := false } }

/-- A Start request for the libvirt driver. -/
def libvirtConfig : StartConfig :=
  { Name := "crc", BundlePath := "crc.tar.xz", VMDriver := "libvirt", Memory := 8192,
    CPUs := 4, Debug := true }

/-- A Start request naming a driver that is not supported. -/
def hypervConfig : StartConfig := { libvirtConfig with VMDriver := "hyperv" }

/-! ## Reasoning about runs -/

/-- The run of `x` from the history `tr` ends in an outcome and a history that
satisfy `Q`. -/
def post {α : Type} (x : Exec α) (tr : List Event) (Q : Outcome α → List Event → Prop) : Prop :=
  Q (x tr).1 (x tr).2

/-- The condition `Q` seen from inside a `withDefer`: the deferred call still
extends the history unless the process exited. -/
def postD {α : Type} (d : Exec Unit) (Q : Outcome α → List Event → Prop) :
    Outcome α → List Event → Prop
  | .exited c m, tr => Q (.exited c m) tr
  | .returned a, tr => Q (.returned a) (d tr).2
  | .panicked m, tr => Q (.panicked m) (d tr).2

/-- The logging events of a `setMachineLogging` that succeeds. -/
def logSetup (logs : Bool) : List Event :=
  if logs then [.logSetDebug true]
  else [.logSetDebug true, .closeLogFile, .openLogfile none, .logSetOutWriter, .logSetErrWriter]

/-- The value returned by `existVM` for an answer of the registry. -/
def existVMResult (found : Bool) (err : Option GoError) : Bool × Option GoError :=
  if err.isSome then (false, some (NewF "Error checking if the host exists: " (errorText err)))
  else (found, none)

/-- Every event of `l` satisfies `P` together with the events that precede it,
where `seen` is the history before `l`. -/
def eachAfter (P : Event → List Event → Prop) (seen l : List Event) : Prop :=
  ∀ pre y post, l = pre ++ y :: post → P y (seen ++ pre)

/-! ## More sample worlds -/
/-- A world in which the driver-level removal fails. -/
def driverRemoveFails : World :=
  { calmWorld with driverRemove := fun _ _ => some "driver remove failed" }

/-- A world in which the registry cannot load the handle. -/
def loadFails : World :=
  { calmWorld with apiLoad := fun _ _ => (none, some "Host does not exist: crc") }

/-- The lenient world with a registry that does not know the VM yet. -/
def lenientFreshWorld : World :=
  { lenientWorld with apiExists := fun _ _ => (false, none) }

/-- A world in which the VM does not exist yet and every call succeeds. -/
def freshWorld : World :=
  { calmWorld with apiExists := fun _ _ => (false, none) }

/-- The registry call `Create` for the handle `vm`. -/
def Event.isCreateOf (vm : Option Host) : Event → Bool
  | .apiCreate v _ => v == vm
  | _ => false

/-- The order that `Start` keeps for an event `y` that follows the history `seen`:
the DNS pre-start hook follows no existence check, creation or driver start,
and the DNS post-start hook follows the successful answers it is given. -/
def hookOrder (y : Event) (seen : List Event) : Prop :=
  match y with
  | .dnsRunPreStart _ => ∀ ev ∈ seen, ev.isCheckCreateStart = false
  | .dnsRunPostStart c =>
    Event.driverGetIP c.Driver (c.IP, none) ∈ seen ∧
      Event.determineHostIP c.IP (c.HostIP, none) ∈ seen
  | _ => True

/-- A world in which the kubeadmin password file cannot be read. -/
def passwordMissing : World :=
  { calmWorld with readFile := fun _ _ => ("", some "open kubeadmin-password: no such file") }

/-- A world in which the VM exists and is stopped, the driver fails to start it
and every later step succeeds. -/
def driverStartFails : World :=
  { calmWorld with
    driverGetState := fun _ _ => (State.Stopped, none)
    driverStart := fun _ _ => some "start failed" }

/-- A world in which the VM does not exist yet and the registry cannot build a
new host for the driver. -/
def newHostFails : World :=
  { calmWorld with
    apiExists := fun _ _ => (false, none)
    apiNewHost := fun _ _ _ => (none, some "driver binary not found") }

set_option maxHeartbeats 4000000
set_option linter.unusedTactic false
set_option linter.unreachableTactic false
set_option linter.unusedVariables false

/-! ## Rules for `post` -/

theorem bind_eq {α β : Type} (x : Exec α) (f : α → Exec β) : (x >>= f) = Exec.bind x f := rfl
theorem pure_eq {α : Type} (a : α) : (pure a : Exec α) = Exec.pure a := rfl

section rules
variable {α β γ : Type} {tr : List Event}

theorem post_pure {a : α} {Q : Outcome α → List Event → Prop}
    (h : Q (.returned a) tr) : post (Exec.pure a) tr Q := h

theorem post_ite {c : Prop} [Decidable c] {x y : Exec α} {Q : Outcome α → List Event → Prop}
    (h1 : c → post x tr Q) (h2 : ¬c → post y tr Q) : post (if c then x else y) tr Q := by
  split
  · exact h1 ‹_›
  · exact h2 ‹_›

theorem post_withDefer {d : Exec Unit} {x : Exec α} {Q : Outcome α → List Event → Prop}
    (h : post x tr (postD d Q)) : post (withDefer d x) tr Q := by
  unfold post withDefer at *
  revert h
  rcases x tr with ⟨o, t⟩
  cases o <;> simp [postD]

theorem post_bind_assoc {x : Exec α} {f : α → Exec β} {g : β → Exec γ}
    {Q : Outcome γ → List Event → Prop}
    (h : post (Exec.bind x (fun a => Exec.bind (f a) g)) tr Q) :
    post (Exec.bind (Exec.bind x f) g) tr Q := by
  unfold post Exec.bind at *
  revert h
  rcases x tr with ⟨o, t⟩
  cases o <;> simp

theorem post_bind_pure {a : α} {f : α → Exec β} {Q : Outcome β → List Event → Prop}
    (h : post (f a) tr Q) : post (Exec.bind (Exec.pure a) f) tr Q := h

theorem post_bind_emit {e : Event} {f : Unit → Exec β} {Q : Outcome β → List Event → Prop}
    (h : post (f ()) (tr ++ [e]) Q) : post (Exec.bind (emit e) f) tr Q := h

theorem post_bind_goPanic {m : String} {f : α → Exec β} {Q : Outcome β → List Event → Prop}
    (h : Q (.panicked m) tr) : post (Exec.bind (goPanic m) f) tr Q := h

theorem post_bind_exit {c : Nat} {m : String} {f : α → Exec β} {Q : Outcome β → List Event → Prop}
    (h : Q (.exited c m) tr) : post (Exec.bind (ExitWithMessage c m) f) tr Q := h

theorem post_bind_deref {p : Option α} {f : α → Exec β} {Q : Outcome β → List Event → Prop}
    (h1 : ∀ a, p = some a → post (f a) tr Q)
    (h2 : p = none → Q (.panicked "invalid memory address or nil pointer dereference") tr) :
    post (Exec.bind (deref p) f) tr Q := by
  cases p with
  | none => exact h2 rfl
  | some a => exact h1 a rfl

theorem post_bind_index0 {xs : List α} {f : α → Exec β} {Q : Outcome β → List Event → Prop}
    (h1 : ∀ a l, xs = a :: l → post (f a) tr Q)
    (h2 : xs = [] → Q (.panicked "index out of range") tr) :
    post (Exec.bind (index0 xs) f) tr Q := by
  cases xs with
  | nil => exact h2 rfl
  | cons a l => exact h1 a l rfl

theorem post_bind_ite {c : Prop} [Decidable c] {x y : Exec α} {f : α → Exec β}
    {Q : Outcome β → List Event → Prop}
    (h1 : c → post (Exec.bind x f) tr Q) (h2 : ¬c → post (Exec.bind y f) tr Q) :
    post (Exec.bind (if c then x else y) f) tr Q := by
  split
  · exact h1 ‹_›
  · exact h2 ‹_›

theorem post_bind_call {ρ : Type} {ask : List Event → ρ} {mk : ρ → Event} {f : ρ → Exec β}
    {Q : Outcome β → List Event → Prop}
    (h : ∀ r, post (f r) (tr ++ [mk r]) Q) : post (Exec.bind (call ask mk) f) tr Q := h (ask tr)

theorem post_bind_call2 {ρ σ : Type} {ask : List Event → ρ × σ} {mk : ρ × σ → Event}
    {f : ρ × σ → Exec β} {Q : Outcome β → List Event → Prop}
    (h : ∀ r s, post (f (r, s)) (tr ++ [mk (r, s)]) Q) : post (Exec.bind (call ask mk) f) tr Q :=
  h (ask tr).1 (ask tr).2

theorem post_bind_call3 {ρ σ τ : Type} {ask : List Event → ρ × σ × τ} {mk : ρ × σ × τ → Event}
    {f : ρ × σ × τ → Exec β} {Q : Outcome β → List Event → Prop}
    (h : ∀ r s t, post (f (r, s, t)) (tr ++ [mk (r, s, t)]) Q) :
    post (Exec.bind (call ask mk) f) tr Q :=
  h (ask tr).1 (ask tr).2.1 (ask tr).2.2


theorem post_bind_ite_pos {c : Prop} [Decidable c] {x y : Exec α} {f : α → Exec β}
    {Q : Outcome β → List Event → Prop} (hc : c)
    (h : post (Exec.bind x f) tr Q) : post (Exec.bind (if c then x else y) f) tr Q := by
  rw [if_pos hc]; exact h

theorem post_bind_ite_neg {c : Prop} [Decidable c] {x y : Exec α} {f : α → Exec β}
    {Q : Outcome β → List Event → Prop} (hc : ¬c)
    (h : post (Exec.bind y f) tr Q) : post (Exec.bind (if c then x else y) f) tr Q := by
  rw [if_neg hc]; exact h

theorem post_ite_pos {c : Prop} [Decidable c] {x y : Exec α}
    {Q : Outcome α → List Event → Prop} (hc : c)
    (h : post x tr Q) : post (if c then x else y) tr Q := by
  rw [if_pos hc]; exact h

theorem post_ite_neg {c : Prop} [Decidable c] {x y : Exec α}
    {Q : Outcome α → List Event → Prop} (hc : ¬c)
    (h : post y tr Q) : post (if c then x else y) tr Q := by
  rw [if_neg hc]; exact h

theorem post_bind_emitIf {c : Prop} [Decidable c] {e : Event} {f : Unit → Exec β}
    {Q : Outcome β → List Event → Prop}
    (h : post (f ()) (tr ++ (if c then [e] else [])) Q) :
    post (Exec.bind (if c then emit e else Exec.pure ()) f) tr Q := by
  by_cases hc : c
  · rw [if_pos hc] at h ⊢; exact h
  · rw [if_neg hc] at h ⊢
    rw [List.append_nil] at h; exact h

theorem post_bind_deref_some {a : α} {f : α → Exec β} {Q : Outcome β → List Event → Prop}
    (h : post (f a) tr Q) : post (Exec.bind (deref (some a)) f) tr Q := h

theorem post_bind_deref_none {f : α → Exec β} {Q : Outcome β → List Event → Prop}
    (h : Q (.panicked "invalid memory address or nil pointer dereference") tr) :
    post (Exec.bind (deref (none : Option α)) f) tr Q := h

end rules

theorem unset_trace (tr : List Event) : (unsetMachineLogging tr).2 = tr ++ [.closeLogFile, .initLogrus] := by
  simp [unsetMachineLogging, bind, Exec.bind, emit]

theorem emit_trace (e : Event) (tr : List Event) : (emit e tr).2 = tr ++ [e] := rfl

theorem mem_logSetup (logs : Bool) (e : Event) :
    e ∈ logSetup logs ↔ e = .logSetDebug true ∨ (logs = false ∧ (e = .closeLogFile ∨
      e = .openLogfile none ∨ e = .logSetOutWriter ∨ e = .logSetErrWriter)) := by
  cases logs <;> simp [logSetup]

section helpers
variable {β : Type} {tr : List Event}

theorem post_bind_setMachineLogging {w : World} {logs : Bool} {f : Option GoError → Exec β}
    {Q : Outcome β → List Event → Prop}
    (h1 : ∀ e : GoError, logs = false →
      post (f (some e)) (tr ++ [.logSetDebug true, .closeLogFile, .openLogfile (some e)]) Q)
    (h2 : post (f none) (tr ++ logSetup logs) Q) :
    post (Exec.bind (setMachineLogging w logs) f) tr Q := by
  unfold post at *
  cases logs
  · cases hO : w.openLogfile (tr ++ [.logSetDebug true, .closeLogFile]) with
    | none =>
      simpa [setMachineLogging, bind_eq, pure_eq, Exec.bind, Exec.pure, emit, call, hO, logSetup] using h2
    | some e =>
      simpa [setMachineLogging, bind_eq, pure_eq, Exec.bind, Exec.pure, emit, call, hO] using h1 e rfl
  · simpa [setMachineLogging, bind_eq, pure_eq, Exec.bind, Exec.pure, emit, logSetup] using h2

theorem post_bind_existVM {w : World} {mc : MachineConfig} {f : Bool × Option GoError → Exec β}
    {Q : Outcome β → List Event → Prop}
    (h : ∀ found err, post (f (existVMResult found err))
      (tr ++ [.apiExists mc.Name (found, err)]) Q) :
    post (Exec.bind (existVM w mc) f) tr Q := by
  have h1 := h (w.apiExists tr mc.Name).1 (w.apiExists tr mc.Name).2
  unfold post at *
  rcases hE : w.apiExists tr mc.Name with ⟨found, err⟩
  rw [hE] at h1
  cases err <;>
    simpa [existVM, bind_eq, pure_eq, Exec.bind, Exec.pure, call, hE, existVMResult] using h1

theorem post_bind_getDriverOptions {mc : MachineConfig} {f : DriverOptions → Exec β}
    {Q : Outcome β → List Event → Prop}
    (h1 : ∀ o, (mc.VMDriver = "libvirt" ∧ o = .libvirt mc) ∨
        (mc.VMDriver = "virtualbox" ∧ o = .virtualbox mc) → post (f o) tr Q)
    (h2 : mc.VMDriver ≠ "libvirt" → mc.VMDriver ≠ "virtualbox" →
      Q (.exited 1 ("Unsupported driver: " ++ mc.VMDriver)) tr) :
    post (Exec.bind (getDriverOptions mc) f) tr Q := by
  unfold getDriverOptions
  by_cases hl : mc.VMDriver = "libvirt"
  · rw [if_pos hl]; exact h1 _ (Or.inl ⟨hl, rfl⟩)
  · rw [if_neg hl]
    by_cases hv : mc.VMDriver = "virtualbox"
    · rw [if_pos hv]; exact h1 _ (Or.inr ⟨hv, rfl⟩)
    · rw [if_neg hv]; exact h2 hl hv

end helpers

theorem mem_ite_singleton {c : Prop} [Decidable c] (e x : Event) :
    x ∈ (if c then [e] else []) ↔ c ∧ x = e := by
  by_cases hc : c <;> simp [hc]

theorem eachAfter_nil (P : Event → List Event → Prop) (seen : List Event) :
    eachAfter P seen [] ↔ True := by
  simp [eachAfter]

theorem eachAfter_cons (P : Event → List Event → Prop) (seen : List Event) (e : Event)
    (l : List Event) :
    eachAfter P seen (e :: l) ↔ P e seen ∧ eachAfter P (seen ++ [e]) l := by
  unfold eachAfter
  constructor
  · intro h
    refine ⟨by simpa using h [] e l rfl, fun pre y post hl => ?_⟩
    have := h (e :: pre) y post (by simp [hl])
    simpa using this
  · rintro ⟨h1, h2⟩ pre y post hl
    cases pre with
    | nil =>
      simp only [List.nil_append, List.cons.injEq] at hl
      obtain ⟨rfl, -⟩ := hl
      simpa using h1
    | cons a pre =>
      simp only [List.cons_append, List.cons.injEq] at hl
      obtain ⟨rfl, hl⟩ := hl
      simpa using h2 pre y post hl

theorem eachAfter_append (P : Event → List Event → Prop) (seen l1 l2 : List Event) :
    eachAfter P seen (l1 ++ l2) ↔ eachAfter P seen l1 ∧ eachAfter P (seen ++ l1) l2 := by
  induction l1 generalizing seen with
  | nil => simp [eachAfter_nil]
  | cons a l ih =>
    rw [List.cons_append, eachAfter_cons, eachAfter_cons, ih]
    simp [and_assoc]

theorem eachAfter_ite (P : Event → List Event → Prop) (seen l1 l2 : List Event) (c : Prop)
    [Decidable c] :
    eachAfter P seen (if c then l1 else l2) ↔
      (c → eachAfter P seen l1) ∧ (¬c → eachAfter P seen l2) := by
  by_cases hc : c <;> simp [hc]

theorem existVM_found_iff (found : Bool) (err : Option GoError) :
    (!(existVMResult found err).1) = true ↔ (found = false ∨ err ≠ none) := by
  cases found <;> cases err <;> simp [existVMResult]

theorem firstStateAnswer_nil : firstStateAnswer [] = none := rfl

theorem firstStateAnswer_cons (e : Event) (l : List Event) :
    firstStateAnswer (e :: l) = (e.stateAnswer).or (firstStateAnswer l) := by
  unfold firstStateAnswer
  rw [List.findSome?_cons]
  cases e.stateAnswer <;> rfl

theorem firstStateAnswer_append (l1 l2 : List Event) :
    firstStateAnswer (l1 ++ l2) = (firstStateAnswer l1).or (firstStateAnswer l2) := by
  unfold firstStateAnswer
  exact List.findSome?_append

theorem firstStateAnswer_logSetup (logs : Bool) : firstStateAnswer (logSetup logs) = none := by
  cases logs <;> rfl

theorem firstStateAnswer_ite (c : Prop) [Decidable c] (l1 l2 : List Event) :
    firstStateAnswer (if c then l1 else l2) =
      if c then firstStateAnswer l1 else firstStateAnswer l2 := by
  by_cases hc : c <;> simp [hc]

/-! ## Lemmas on the aggregation of errors -/

theorem errorText_some (e : GoError) : errorText (some e) = e := rfl

theorem toList_eq_nil (o : Option GoError) : o.toList = [] ↔ o = none := by
  cases o <;> simp

theorem collect_errors (e1 e2 : Option GoError) :
    ((MultiError.Collect {} e1).Collect e2).Errors = e1.toList ++ e2.toList := by
  cases e1 <;> cases e2 <;> rfl

/-! ## The claims -/

/-- Claim C1: in every `Delete` call whose registry load succeeds with a handle
`h`, whatever the two removals answer, the call makes exactly four calls, in
this order: the client is built, the handle is loaded, the driver-level
`Remove` is invoked once on `h` (answer `e1`), and then the registry-level
`Remove` is invoked once on the name (answer `e2`).  A failing driver-level
removal does not prevent the registry-level one. -/
theorem Delete_attempts_both_removals (w : World) (deleteConfig : DeleteConfig) (h : Host)
    (hload : Event.apiLoad deleteConfig.Name (some h, none) ∈ trace (Delete w deleteConfig)) :
    ∃ e1 e2, trace (Delete w deleteConfig) =
      [.newClient, .apiLoad deleteConfig.Name (some h, none), .driverRemove h e1,
       .apiRemove deleteConfig.Name e2] := by
  have key : post (Delete w deleteConfig) [] (fun _ t =>
      Event.apiLoad deleteConfig.Name (some h, none) ∈ t →
      ∃ e1 e2, t = [.newClient, .apiLoad deleteConfig.Name (some h, none), .driverRemove h e1,
        .apiRemove deleteConfig.Name e2]) := by
    unfold Delete
    simp only [bind_eq, pure_eq]
    repeat' first
      | with_reducible refine post_bind_assoc ?_
      | with_reducible refine post_bind_pure ?_
      | with_reducible refine post_bind_emit ?_
      | with_reducible refine post_bind_deref_some ?_
      | with_reducible refine post_bind_deref_none ?_
      | with_reducible refine post_bind_deref (fun _ _ => ?_) (fun _ => ?_)
      | with_reducible refine post_bind_call2 (fun _ _ => ?_)
      | with_reducible refine post_bind_call (fun _ => ?_)
      | with_reducible refine post_ite (fun _ => ?_) (fun _ => ?_)
      | with_reducible refine post_pure ?_
    all_goals simp only [List.nil_append, List.append_assoc, List.singleton_append, List.cons_append, List.mem_cons, List.mem_singleton, List.not_mem_nil, or_false, reduceCtorEq, false_or, Event.apiLoad.injEq, Prod.mk.injEq, and_imp, true_and]
    all_goals intros
    all_goals subst_vars
    all_goals simp_all
  exact key hload

/-- Instance for claim C1: the driver-level removal fails and the registry-level one still runs. -/
theorem Delete_attempts_both_removals_witness :
    Event.apiLoad "crc" (some ⟨1⟩, none) ∈ trace (Delete driverRemoveFails ⟨"crc"⟩) ∧
    ∃ e1 e2, trace (Delete driverRemoveFails ⟨"crc"⟩) =
      [.newClient, .apiLoad "crc" (some ⟨1⟩, none), .driverRemove ⟨1⟩ e1, .apiRemove "crc" e2] :=
  ⟨by decide, Delete_attempts_both_removals driverRemoveFails ⟨"crc"⟩ ⟨1⟩ (by decide)⟩

/-- Claim C2: in every `Delete` call whose registry load succeeds, with `e1` the
answer of the driver-level removal and `e2` the answer of the registry-level
removal: if both are nil the call returns `Success = true`, an empty `Error`
and a nil error; otherwise it returns `Success = false` and a non-nil error
whose text is also the `Error` field, namely the aggregate of every failure
that occurred, in order (the driver failure, then the registry failure). -/
theorem Delete_reports_aggregate (w : World) (deleteConfig : DeleteConfig) (h : Host)
    (e1 e2 : Option GoError)
    (hload : Event.apiLoad deleteConfig.Name (some h, none) ∈ trace (Delete w deleteConfig))
    (h1 : Event.driverRemove h e1 ∈ trace (Delete w deleteConfig))
    (h2 : Event.apiRemove deleteConfig.Name e2 ∈ trace (Delete w deleteConfig)) :
    (e1 = none ∧ e2 = none →
      outcome (Delete w deleteConfig) =
        .returned ({ Name := deleteConfig.Name, Success := true, Error := "" }, none)) ∧
    (¬(e1 = none ∧ e2 = none) →
      outcome (Delete w deleteConfig) =
        .returned ({ Name := deleteConfig.Name, Success := false,
                     Error := String.intercalate "\n" (e1.toList ++ e2.toList) },
                   some (String.intercalate "\n" (e1.toList ++ e2.toList)))) := by
  have key : post (Delete w deleteConfig) [] (fun o t =>
      Event.apiLoad deleteConfig.Name (some h, none) ∈ t → Event.driverRemove h e1 ∈ t →
      Event.apiRemove deleteConfig.Name e2 ∈ t →
      (e1 = none ∧ e2 = none →
        o = .returned ({ Name := deleteConfig.Name, Success := true, Error := "" }, none)) ∧
      (¬(e1 = none ∧ e2 = none) →
        o = .returned
          ({ Name := deleteConfig.Name, Success := false, Error := String.intercalate "\n" (e1.toList ++ e2.toList) },
            some (String.intercalate "\n" (e1.toList ++ e2.toList))))) := by
    unfold Delete
    simp only [bind_eq, pure_eq]
    repeat' first
      | with_reducible refine post_bind_assoc ?_
      | with_reducible refine post_bind_pure ?_
      | with_reducible refine post_bind_emit ?_
      | with_reducible refine post_bind_deref_some ?_
      | with_reducible refine post_bind_deref_none ?_
      | with_reducible refine post_bind_deref (fun _ _ => ?_) (fun _ => ?_)
      | with_reducible refine post_bind_call2 (fun _ _ => ?_)
      | with_reducible refine post_bind_call (fun _ => ?_)
      | with_reducible refine post_ite (fun _ => ?_) (fun _ => ?_)
      | with_reducible refine post_pure ?_
    all_goals simp only [List.nil_append, List.append_assoc, List.singleton_append, List.cons_append, List.mem_cons, List.mem_singleton, List.not_mem_nil, or_false, reduceCtorEq, false_or, Event.apiLoad.injEq, Event.driverRemove.injEq, Event.apiRemove.injEq, Prod.mk.injEq, and_imp, true_and]
    all_goals intros
    all_goals subst_vars
    all_goals simp_all [MultiError.ToError, collect_errors, toList_eq_nil]
  exact key hload h1 h2

/-- Instance for claim C2: the driver-level removal fails and the registry-level one succeeds. -/
theorem Delete_reports_aggregate_witness :
    outcome (Delete driverRemoveFails ⟨"crc"⟩) =
      .returned ({ Name := "crc", Success := false, Error := "driver remove failed" },
        some "driver remove failed") :=
  (Delete_reports_aggregate driverRemoveFails ⟨"crc"⟩ ⟨1⟩ (some "driver remove failed") none
    (by decide) (by decide) (by decide)).2 (by decide)

/-- Claim C3 fails as stated: with the driver `hyperv` on a VM that does not
exist yet, the `Unsupported driver` exit comes after the bundle resolution, the
password read and the registry `Exists` call; and when the VM exists the call
with that driver returns a result normally. -/
theorem Start_unsupported_driver_after_registry_check :
    outcome (Start lenientFreshWorld hypervConfig) = .exited 1 "Unsupported driver: hyperv" ∧
    trace (Start lenientFreshWorld hypervConfig) =
      [.logSetDebug true, .newClient,
       .getCrcBundleInfo
         { Name := "crc", BundlePath := "crc.tar.xz", VMDriver := "hyperv", CPUs := 4,
           Memory := 8192 }
         (some sampleBundle, "/b", none),
       .readFile "/b/kubeadmin-password" ("secret", none),
       .apiExists "crc" (false, none)] ∧
    outcome (Start lenientWorld hypervConfig) =
      .returned ({ Name := "crc", Status := "Running", Error := "",
                   ClusterConfig := { KubeConfig := "/b/kubeconfig", KubeAdminPass := "secret",
                                      ClusterAPI := "https://console" },
                   KubeletStarted := true }, none) := by
  decide

/-- Claim C3, as amended: a `Start` call whose driver name is neither `libvirt`
nor `virtualbox` is stopped with `Unsupported driver: <name>` only when it
creates the VM.  If the existence check answers that the VM is absent (or
fails), the process exits with code 1 and that message right after the
`Exists` call, which is the last event; the events before it include the
bundle resolution and the file read, and no registry call.  If the existence
check answers that the VM exists, the call never exits with a message: the
driver name is not checked. -/
theorem Start_unsupported_driver_exits_at_creation (w : World) (startConfig : StartConfig)
    (hl : startConfig.VMDriver ≠ "libvirt") (hv : startConfig.VMDriver ≠ "virtualbox") :
    (∀ found err, Event.apiExists startConfig.Name (found, err) ∈ trace (Start w startConfig) →
      (found = false ∨ err ≠ none) →
      outcome (Start w startConfig) =
        .exited 1 ("Unsupported driver: " ++ startConfig.VMDriver) ∧
      (∃ pre, trace (Start w startConfig) =
          pre ++ [Event.apiExists startConfig.Name (found, err)] ∧
        (∃ ev ∈ pre, ev.isBundleResolution = true) ∧ (∃ ev ∈ pre, ev.isFileRead = true) ∧
        ∀ ev ∈ pre, ev.isRegistryCall = false)) ∧
    (Event.apiExists startConfig.Name (true, none) ∈ trace (Start w startConfig) →
      ∀ c m, outcome (Start w startConfig) ≠ .exited c m) := by
  have key : post (Start w startConfig) [] (fun o t =>
      (∀ found err, Event.apiExists startConfig.Name (found, err) ∈ t →
        (found = false ∨ err ≠ none) →
        o = .exited 1 ("Unsupported driver: " ++ startConfig.VMDriver) ∧
        (∃ pre, t = pre ++ [Event.apiExists startConfig.Name (found, err)] ∧
          (∃ ev ∈ pre, ev.isBundleResolution = true) ∧ (∃ ev ∈ pre, ev.isFileRead = true) ∧
          ∀ ev ∈ pre, ev.isRegistryCall = false)) ∧
      (Event.apiExists startConfig.Name (true, none) ∈ t → ∀ c m, o ≠ .exited c m)) := by
    unfold Start createHost
    simp only [bind_eq, pure_eq]
    repeat' first
      | with_reducible refine post_withDefer ?_
      | with_reducible refine post_bind_assoc ?_
      | with_reducible refine post_bind_pure ?_
      | with_reducible refine post_bind_emit ?_
      | with_reducible refine post_bind_goPanic ?_
      | with_reducible refine post_bind_exit ?_
      | with_reducible refine post_bind_setMachineLogging (fun _ _ => ?_) ?_
      | with_reducible refine post_bind_existVM (fun _ _ => ?_)
      | with_reducible refine post_bind_getDriverOptions (fun _ _ => ?_) (fun _ _ => ?_)
      | with_reducible refine post_bind_deref_some ?_
      | with_reducible refine post_bind_deref_none ?_
      | with_reducible refine post_bind_deref (fun _ _ => ?_) (fun _ => ?_)
      | with_reducible refine post_bind_index0 (fun _ _ _ => ?_) (fun _ => ?_)
      | with_reducible refine post_bind_emitIf ?_
      | ((with_reducible refine post_bind_ite_pos ?hc ?_); (case hc => first | assumption | rfl))
      | ((with_reducible refine post_bind_ite_neg ?hc ?_); (case hc => first | assumption | exact Bool.false_ne_true))
      | with_reducible refine post_bind_ite (fun _ => ?_) (fun _ => ?_)
      | with_reducible refine post_bind_call3 (fun _ _ _ => ?_)
      | with_reducible refine post_bind_call2 (fun _ _ => ?_)
      | with_reducible refine post_bind_call (fun _ => ?_)
      | ((with_reducible refine post_ite_pos ?hc ?_); (case hc => first | assumption | rfl))
      | ((with_reducible refine post_ite_neg ?hc ?_); (case hc => first | assumption | exact Bool.false_ne_true))
      | with_reducible refine post_ite (fun _ => ?_) (fun _ => ?_)
      | with_reducible refine post_pure ?_
    all_goals simp only [postD, unset_trace, emit_trace]
    all_goals refine ⟨fun found err hH hN => ?_, fun hH => ?_⟩
    all_goals simp only [List.nil_append, List.append_assoc,
      List.singleton_append, List.cons_append, List.mem_append, List.mem_cons, List.mem_singleton,
      List.not_mem_nil, or_false, false_or, mem_logSetup, mem_ite_singleton, reduceCtorEq, false_and,
      and_false, Event.apiExists.injEq, Prod.mk.injEq, true_and] at hH
    all_goals obtain ⟨rfl, rfl⟩ := hH
    all_goals first
      | (intro c m hcm; cases hcm; done)
      | (exfalso; simp only [existVM_found_iff] at *; first | contradiction | (simp_all; done))
      | skip
    refine ⟨trivial, _, rfl, List.any_eq_true.mp ?_, List.any_eq_true.mp ?_, ?_⟩
    · simp only [List.any_append, List.any_cons, List.any_nil, Event.isBundleResolution,
        Bool.or_true, Bool.true_or, Bool.or_false]
    · simp only [List.any_append, List.any_cons, List.any_nil, Event.isFileRead, Bool.or_true,
        Bool.true_or, Bool.or_false]
    · simp only [List.nil_append, List.append_assoc, List.singleton_append, List.cons_append,
        List.mem_append, List.mem_cons, List.mem_singleton, List.not_mem_nil, or_false,
        mem_logSetup, mem_ite_singleton, or_imp, forall_and, and_imp, forall_eq, forall_eq_apply_imp_iff,
        Event.isRegistryCall, implies_true, and_self, List.append_nil]
  exact key

/-- Instance for claim C3: the driver `hyperv` on a VM that does not exist yet. -/
theorem Start_unsupported_driver_exits_at_creation_witness :
    outcome (Start lenientFreshWorld hypervConfig) = .exited 1 "Unsupported driver: hyperv" :=
  ((Start_unsupported_driver_exits_at_creation lenientFreshWorld hypervConfig (by decide)
    (by decide)).1 false none (by decide) (Or.inl rfl)).1

/-- Claim C4: for every `Start` call that reaches the existence check,
(a) if the registry answers that the VM is absent (or the check fails), no
driver start or stop call is made during the call, and creation is attempted
through `createHost`: for a supported driver the registry `NewHost` is called
for that driver, and whenever `NewHost` answers a handle without error the
registry `Create` is called on that handle; for any other driver name
`createHost` stops the process with `Unsupported driver: <name>`;
(b) if the registry answers that the VM exists and the first driver state
query answers `Running`, the call makes no driver `Start` and no registry
`Save`. -/
theorem Start_creates_before_driver_start (w : World) (startConfig : StartConfig) :
    (∀ found err, Event.apiExists startConfig.Name (found, err) ∈ trace (Start w startConfig) →
      (found = false ∨ err ≠ none) →
      (∀ ev ∈ trace (Start w startConfig), ev.isDriverStartStop = false) ∧
      ((startConfig.VMDriver = "libvirt" ∨ startConfig.VMDriver = "virtualbox") →
        ∃ ev ∈ trace (Start w startConfig), ev.isNewHostFor startConfig.VMDriver = true) ∧
      (∀ raw vm, Event.apiNewHost startConfig.VMDriver raw (vm, none) ∈
          trace (Start w startConfig) →
        ∃ ev ∈ trace (Start w startConfig), ev.isCreateOf vm = true) ∧
      (startConfig.VMDriver ≠ "libvirt" → startConfig.VMDriver ≠ "virtualbox" →
        outcome (Start w startConfig) =
          .exited 1 ("Unsupported driver: " ++ startConfig.VMDriver))) ∧
    (∀ e, Event.apiExists startConfig.Name (true, none) ∈ trace (Start w startConfig) →
      firstStateAnswer (trace (Start w startConfig)) = some (State.Running, e) →
      ∀ ev ∈ trace (Start w startConfig), ev.isDriverStartStop = false ∧ ev.isSave = false) := by
  have key : post (Start w startConfig) [] (fun o t =>
      (∀ found err, Event.apiExists startConfig.Name (found, err) ∈ t →
        (found = false ∨ err ≠ none) →
        (∀ ev ∈ t, ev.isDriverStartStop = false) ∧
        ((startConfig.VMDriver = "libvirt" ∨ startConfig.VMDriver = "virtualbox") →
          ∃ ev ∈ t, ev.isNewHostFor startConfig.VMDriver = true) ∧
        (∀ raw vm, Event.apiNewHost startConfig.VMDriver raw (vm, none) ∈ t →
          ∃ ev ∈ t, ev.isCreateOf vm = true) ∧
        (startConfig.VMDriver ≠ "libvirt" → startConfig.VMDriver ≠ "virtualbox" →
          o = .exited 1 ("Unsupported driver: " ++ startConfig.VMDriver))) ∧
      (∀ e, Event.apiExists startConfig.Name (true, none) ∈ t →
        firstStateAnswer t = some (State.Running, e) →
        ∀ ev ∈ t, ev.isDriverStartStop = false ∧ ev.isSave = false)) := by
    unfold Start createHost
    simp only [bind_eq, pure_eq]
    repeat' first
      | with_reducible refine post_withDefer ?_
      | with_reducible refine post_bind_assoc ?_
      | with_reducible refine post_bind_pure ?_
      | with_reducible refine post_bind_emit ?_
      | with_reducible refine post_bind_goPanic ?_
      | with_reducible refine post_bind_exit ?_
      | with_reducible refine post_bind_setMachineLogging (fun _ _ => ?_) ?_
      | with_reducible refine post_bind_existVM (fun _ _ => ?_)
      | with_reducible refine post_bind_getDriverOptions (fun _ _ => ?_) (fun _ _ => ?_)
      | with_reducible refine post_bind_deref_some ?_
      | with_reducible refine post_bind_deref_none ?_
      | with_reducible refine post_bind_deref (fun _ _ => ?_) (fun _ => ?_)
      | with_reducible refine post_bind_index0 (fun _ _ _ => ?_) (fun _ => ?_)
      | with_reducible refine post_bind_emitIf ?_
      | ((with_reducible refine post_bind_ite_pos ?hc ?_); (case hc => first | assumption | rfl))
      | ((with_reducible refine post_bind_ite_neg ?hc ?_); (case hc => first | assumption | exact Bool.false_ne_true))
      | with_reducible refine post_bind_ite (fun _ => ?_) (fun _ => ?_)
      | with_reducible refine post_bind_call3 (fun _ _ _ => ?_)
      | with_reducible refine post_bind_call2 (fun _ _ => ?_)
      | with_reducible refine post_bind_call (fun _ => ?_)
      | ((with_reducible refine post_ite_pos ?hc ?_); (case hc => first | assumption | rfl))
      | ((with_reducible refine post_ite_neg ?hc ?_); (case hc => first | assumption | exact Bool.false_ne_true))
      | with_reducible refine post_ite (fun _ => ?_) (fun _ => ?_)
      | with_reducible refine post_pure ?_
    all_goals simp only [postD, unset_trace, emit_trace]
    all_goals refine ⟨fun found err hH hN => ?_, fun e hH => ?_⟩
    all_goals simp only [List.nil_append, List.append_assoc,
      List.singleton_append, List.cons_append, List.mem_append, List.mem_cons, List.mem_singleton,
      List.not_mem_nil, or_false, false_or, mem_logSetup, mem_ite_singleton, reduceCtorEq, false_and,
      and_false, Event.apiExists.injEq, Prod.mk.injEq, true_and] at hH
    all_goals obtain ⟨rfl, rfl⟩ := hH
    all_goals first
      | (exfalso
         simp only [existVM_found_iff, ne_eq, not_true_eq_false, or_self, reduceCtorEq] at *
         done)
      | (exfalso
         simp only [existVM_found_iff, ne_eq, not_true_eq_false, or_self, reduceCtorEq] at *
         exact absurd hN ‹_›)
      | skip
    all_goals first
      | (refine ⟨?_, fun hs => ?_, fun raw vm hC => ?_, fun hl hv => ?_⟩
         · simp only [List.nil_append, List.append_assoc, List.singleton_append, List.cons_append,
             List.mem_append, List.mem_cons, List.mem_singleton, List.not_mem_nil, or_false,
             mem_logSetup, mem_ite_singleton, or_imp, forall_and, and_imp, forall_eq,
             forall_eq_apply_imp_iff, Event.isDriverStartStop, implies_true, and_self,
             List.append_nil]
         · first
             | (exfalso
                rcases hs with hs | hs
                · exact absurd hs ‹_ ≠ "libvirt"›
                · exact absurd hs ‹_ ≠ "virtualbox"›)
             | (refine List.any_eq_true.mp ?_
                simp only [List.any_append, List.any_cons, List.any_nil, Event.isNewHostFor,
                  beq_self_eq_true, Bool.or_true, Bool.true_or, Bool.or_false])
         · first
             | (simp only [List.nil_append, List.append_assoc, List.singleton_append,
                  List.cons_append, List.mem_append, List.mem_cons, List.mem_singleton,
                  List.not_mem_nil, or_false, false_or, mem_logSetup, mem_ite_singleton,
                  reduceCtorEq, false_and, and_false, Event.apiNewHost.injEq, Prod.mk.injEq,
                  true_and] at hC
                done)
             | (simp only [List.nil_append, List.append_assoc, List.singleton_append,
                  List.cons_append, List.mem_append, List.mem_cons, List.mem_singleton,
                  List.not_mem_nil, or_false, false_or, mem_logSetup, mem_ite_singleton,
                  reduceCtorEq, false_and, and_false, Event.apiNewHost.injEq, Prod.mk.injEq,
                  true_and] at hC
                obtain ⟨rfl, rfl, rfl⟩ := hC
                first
                  | (exfalso; exact Bool.false_ne_true ‹(_, none).2.isSome = true›)
                  | (refine List.any_eq_true.mp ?_
                     simp only [List.any_append, List.any_cons, List.any_nil, Event.isCreateOf,
                       beq_self_eq_true, Bool.or_true, Bool.true_or, Bool.or_false]))
         · first
             | trivial
             | (exfalso
                rcases ‹(_ ∧ _) ∨ (_ ∧ _)› with ⟨h1, -⟩ | ⟨h1, -⟩
                · exact hl h1
                · exact hv h1))
      | (intro hF
         simp only [firstStateAnswer_append, firstStateAnswer_cons, firstStateAnswer_nil,
           firstStateAnswer_logSetup, firstStateAnswer_ite, Event.stateAnswer, Option.none_or,
           Option.or_some, ite_self, reduceCtorEq, Option.some.injEq, Prod.mk.injEq] at hF
         done)
      | skip
    all_goals intro hF
    all_goals simp only [firstStateAnswer_append, firstStateAnswer_cons, firstStateAnswer_nil,
           firstStateAnswer_logSetup, firstStateAnswer_ite, Event.stateAnswer, Option.none_or,
           Option.or_some, ite_self, reduceCtorEq, Option.some.injEq, Prod.mk.injEq] at hF
    all_goals obtain ⟨rfl, rfl⟩ := hF
    all_goals first
      | (exfalso; exact ‹(_, _).1 ≠ _› rfl)
      | (simp only [List.nil_append, List.append_assoc, List.singleton_append, List.cons_append,
           List.mem_append, List.mem_cons, List.mem_singleton, List.not_mem_nil, or_false,
           mem_logSetup, mem_ite_singleton, or_imp, forall_and, and_imp, forall_eq,
           forall_eq_apply_imp_iff, Event.isDriverStartStop, Event.isSave, implies_true, and_self,
           List.append_nil]
         done)
      | skip
  exact key

/-- Instance for claim C4: a VM that does not exist yet, an unsupported driver, and a VM that is running. -/
theorem Start_creates_before_driver_start_witness :
    ((∀ ev ∈ trace (Start freshWorld libvirtConfig), ev.isDriverStartStop = false) ∧
      (∃ ev ∈ trace (Start freshWorld libvirtConfig), ev.isNewHostFor "libvirt" = true) ∧
      (∃ ev ∈ trace (Start freshWorld libvirtConfig), ev.isCreateOf (some ⟨1⟩) = true)) ∧
    outcome (Start lenientFreshWorld hypervConfig) = .exited 1 "Unsupported driver: hyperv" ∧
    (∀ ev ∈ trace (Start calmWorld libvirtConfig),
      ev.isDriverStartStop = false ∧ ev.isSave = false) :=
  have fresh := (Start_creates_before_driver_start freshWorld libvirtConfig).1 false none
    (by decide) (Or.inl rfl)
  ⟨⟨fresh.1, fresh.2.1 (Or.inl rfl), fresh.2.2.1 "libvirt:crc" (some ⟨1⟩) (by decide)⟩,
   ((Start_creates_before_driver_start lenientFreshWorld hypervConfig).1 false none (by decide)
     (Or.inl rfl)).2.2.2 (by decide) (by decide),
   (Start_creates_before_driver_start calmWorld libvirtConfig).2 none (by decide) (by decide)⟩

/-- Claim C5: in every `Stop` call whose registry load answers with an error
`e`, the call returns that error together with a result that has
`Success = false` and `Error = e`, and no driver method (no `GetState`, no
`Stop`) is called during the call. -/
theorem Stop_unknown_name_fails_fast (w : World) (stopConfig : StopConfig) (host : Option Host)
    (e : GoError)
    (hload : Event.apiLoad stopConfig.Name (host, some e) ∈ trace (Stop w stopConfig)) :
    outcome (Stop w stopConfig) =
      .returned ({ Name := stopConfig.Name, Success := false, Error := e }, some e) ∧
    ∀ ev ∈ trace (Stop w stopConfig), ev.isDriverCall = false := by
  have key : post (Stop w stopConfig) [] (fun o t =>
      Event.apiLoad stopConfig.Name (host, some e) ∈ t →
      o = .returned ({ Name := stopConfig.Name, Success := false, Error := e }, some e) ∧
      ∀ ev ∈ t, ev.isDriverCall = false) := by
    unfold Stop
    simp only [bind_eq, pure_eq]
    repeat' first
      | with_reducible refine post_withDefer ?_
      | with_reducible refine post_bind_assoc ?_
      | with_reducible refine post_bind_pure ?_
      | with_reducible refine post_bind_emit ?_
      | with_reducible refine post_bind_setMachineLogging (fun _ _ => ?_) ?_
      | with_reducible refine post_bind_deref_some ?_
      | with_reducible refine post_bind_deref_none ?_
      | with_reducible refine post_bind_deref (fun _ _ => ?_) (fun _ => ?_)
      | ((with_reducible refine post_ite_pos ?hc ?_); (case hc => first | assumption | rfl))
      | ((with_reducible refine post_ite_neg ?hc ?_); (case hc => first | assumption | exact Bool.false_ne_true))
      | with_reducible refine post_bind_call2 (fun _ _ => ?_)
      | with_reducible refine post_bind_call (fun _ => ?_)
      | with_reducible refine post_ite (fun _ => ?_) (fun _ => ?_)
      | with_reducible refine post_pure ?_
    all_goals simp only [postD, unset_trace, List.nil_append, List.append_assoc, List.singleton_append,
      List.cons_append, List.mem_append, List.mem_cons, List.mem_singleton, List.not_mem_nil, or_false,
      mem_logSetup, reduceCtorEq, false_or, false_and, and_false, Event.apiLoad.injEq, Prod.mk.injEq,
      and_imp, true_and, false_imp_iff, imp_self]
    all_goals intros
    all_goals subst_vars
    all_goals simp_all [Event.isDriverCall, errorText, or_imp, forall_and]
  exact key hload

/-- Instance for claim C5: the registry does not know the name. -/
theorem Stop_unknown_name_fails_fast_witness :
    Event.apiLoad "crc" (none, some "Host does not exist: crc") ∈ trace (Stop loadFails ⟨"crc", true⟩) ∧
    outcome (Stop loadFails ⟨"crc", true⟩) =
      .returned ({ Name := "crc", Success := false, Error := "Host does not exist: crc" },
        some "Host does not exist: crc") ∧
    ∀ ev ∈ trace (Stop loadFails ⟨"crc", true⟩), ev.isDriverCall = false :=
  ⟨by decide, Stop_unknown_name_fails_fast loadFails ⟨"crc", true⟩ none _ (by decide)⟩

theorem eachAfter_logSetup (seen : List Event) (logs : Bool) :
    eachAfter hookOrder seen (logSetup logs) ↔ True := by
  cases logs <;> simp [logSetup, eachAfter_cons, eachAfter_nil, hookOrder]

/-- Claim C6: for every `Start` call,
(a) if the capability descriptor of the driver does not require the DNS
service, no DNS hook is invoked;
(b) every event that precedes an invocation of the DNS pre-start hook is
neither the existence check, nor a registry creation call, nor a driver start;
(c) every invocation of the DNS post-start hook is preceded by a driver
`GetIP` on the same handle that answered its guest IP without error and by a
host IP determination for that guest IP that answered its host IP without
error; and in a call in which a `GetIP` answered with an error the post-start
hook is not invoked at all. -/
theorem Start_dns_hooks_ordered (w : World) (startConfig : StartConfig) :
    ((∀ d, w.getDriverInfo startConfig.VMDriver = some d → d.UseDNSService = false) →
      ∀ ev ∈ trace (Start w startConfig), ev.isDnsHook = false) ∧
    (∀ pre c post, trace (Start w startConfig) = pre ++ Event.dnsRunPreStart c :: post →
      ∀ ev ∈ pre, ev.isCheckCreateStart = false) ∧
    (∀ pre c post, trace (Start w startConfig) = pre ++ Event.dnsRunPostStart c :: post →
      Event.driverGetIP c.Driver (c.IP, none) ∈ pre ∧
        Event.determineHostIP c.IP (c.HostIP, none) ∈ pre) ∧
    (∀ h ip e, Event.driverGetIP h (ip, some e) ∈ trace (Start w startConfig) →
      ∀ c, Event.dnsRunPostStart c ∉ trace (Start w startConfig)) := by
  have key : post (Start w startConfig) [] (fun _ t =>
      ((∀ d, w.getDriverInfo startConfig.VMDriver = some d → d.UseDNSService = false) →
        ∀ ev ∈ t, ev.isDnsHook = false) ∧
      eachAfter hookOrder [] t ∧
      (∀ h ip e, Event.driverGetIP h (ip, some e) ∈ t → ∀ c, Event.dnsRunPostStart c ∉ t)) := by
    unfold Start createHost
    simp only [bind_eq, pure_eq]
    repeat' first
      | with_reducible refine post_withDefer ?_
      | with_reducible refine post_bind_assoc ?_
      | with_reducible refine post_bind_pure ?_
      | with_reducible refine post_bind_emit ?_
      | with_reducible refine post_bind_goPanic ?_
      | with_reducible refine post_bind_exit ?_
      | with_reducible refine post_bind_setMachineLogging (fun _ _ => ?_) ?_
      | with_reducible refine post_bind_existVM (fun _ _ => ?_)
      | with_reducible refine post_bind_getDriverOptions (fun _ _ => ?_) (fun _ _ => ?_)
      | with_reducible refine post_bind_deref_some ?_
      | with_reducible refine post_bind_deref_none ?_
      | with_reducible refine post_bind_deref (fun _ _ => ?_) (fun _ => ?_)
      | with_reducible refine post_bind_index0 (fun _ _ _ => ?_) (fun _ => ?_)
      | with_reducible refine post_bind_emitIf ?_
      | ((with_reducible refine post_bind_ite_pos ?hc ?_); (case hc => first | assumption | rfl))
      | ((with_reducible refine post_bind_ite_neg ?hc ?_); (case hc => first | assumption | exact Bool.false_ne_true))
      | with_reducible refine post_bind_ite (fun _ => ?_) (fun _ => ?_)
      | with_reducible refine post_bind_call3 (fun _ _ _ => ?_)
      | with_reducible refine post_bind_call2 (fun _ _ => ?_)
      | with_reducible refine post_bind_call (fun _ => ?_)
      | ((with_reducible refine post_ite_pos ?hc ?_); (case hc => first | assumption | rfl))
      | ((with_reducible refine post_ite_neg ?hc ?_); (case hc => first | assumption | exact Bool.false_ne_true))
      | with_reducible refine post_ite (fun _ => ?_) (fun _ => ?_)
      | with_reducible refine post_pure ?_
    all_goals simp only [postD, unset_trace, emit_trace]
    all_goals refine ⟨fun hd => ?_, ?_, fun h ip e hH => ?_⟩
    all_goals first
      | (have hd1 := hd _ ‹w.getDriverInfo _ = some _›
         simp only [List.nil_append, List.append_assoc, List.singleton_append, List.cons_append,
           List.mem_append, List.mem_cons, List.mem_singleton, List.not_mem_nil, or_false,
           mem_logSetup, mem_ite_singleton, or_imp, forall_and, and_imp, forall_eq,
           forall_eq_apply_imp_iff, Event.isDnsHook, implies_true, and_self, List.append_nil,
           hd1, Bool.false_eq_true, false_implies, false_and]
         done)
      | (have hd1 := hd
         simp only [List.nil_append, List.append_assoc, List.singleton_append, List.cons_append,
           List.mem_append, List.mem_cons, List.mem_singleton, List.not_mem_nil, or_false,
           mem_logSetup, mem_ite_singleton, or_imp, forall_and, and_imp, forall_eq,
           forall_eq_apply_imp_iff, Event.isDnsHook, implies_true, and_self, List.append_nil]
         done)
      | (simp only [List.nil_append, List.append_assoc, List.singleton_append, List.cons_append,
           List.mem_append, List.mem_cons, List.mem_singleton, List.not_mem_nil, or_false, false_or,
           mem_logSetup, mem_ite_singleton, reduceCtorEq, false_and, and_false,
           Event.driverGetIP.injEq, Prod.mk.injEq] at hH
         done)
      | (simp only [List.nil_append, List.append_assoc, List.singleton_append, List.cons_append,
           List.mem_append, List.mem_cons, List.mem_singleton, List.not_mem_nil, or_false, false_or,
           mem_logSetup, mem_ite_singleton, reduceCtorEq, false_and, and_false,
           Event.driverGetIP.injEq, Prod.mk.injEq] at hH
         obtain ⟨rfl, rfl, rfl⟩ := hH
         first
           | (exfalso; exact ‹¬(_, some _).2.isSome = true› rfl)
           | (simp only [List.nil_append, List.append_assoc, List.singleton_append,
                List.cons_append, List.mem_append, List.mem_cons, List.mem_singleton,
                List.not_mem_nil, or_false, false_or, mem_logSetup, mem_ite_singleton, reduceCtorEq,
                false_and, and_false, not_false_eq_true, implies_true, or_self]
              done))
      | (try simp only [Option.not_isSome_iff_eq_none] at *
         subst_vars
         simp only [eachAfter_append, eachAfter_cons, eachAfter_nil, eachAfter_ite,
           eachAfter_logSetup, hookOrder, List.nil_append, List.append_assoc,
           List.singleton_append, List.cons_append, List.mem_append, List.mem_cons,
           List.mem_singleton, List.not_mem_nil, or_false, false_or, mem_logSetup,
           mem_ite_singleton, reduceCtorEq, false_and, and_false, or_imp, forall_and, and_imp,
           forall_eq, forall_eq_apply_imp_iff, Event.isCheckCreateStart, implies_true, and_self,
           and_true, true_and, List.append_nil, or_true, true_or, not_true_eq_false,
           not_false_eq_true, false_implies]
         done)
      | skip
  refine ⟨key.1, fun pre c post h => ?_, fun pre c post h => ?_, key.2.2⟩
  · have h1 := key.2.1 pre _ post h
    simpa [hookOrder] using h1
  · have h1 := key.2.1 pre _ post h
    simpa [hookOrder] using h1

/-- Instance for claim C6: a driver without the DNS service, and the libvirt driver with it. -/
theorem Start_dns_hooks_ordered_witness :
    (∀ ev ∈ trace (Start lenientWorld libvirtConfig), ev.isDnsHook = false) ∧
    (Event.driverGetIP ⟨1⟩ ("192.168.130.11", none) ∈
        (trace (Start calmWorld libvirtConfig)).take 12 ∧
      Event.determineHostIP "192.168.130.11" ("192.168.130.1", none) ∈
        (trace (Start calmWorld libvirtConfig)).take 12) :=
  ⟨(Start_dns_hooks_ordered lenientWorld libvirtConfig).1 (fun d h => by cases h; rfl),
   (Start_dns_hooks_ordered calmWorld libvirtConfig).2.2.1 _
     { Name := "crc", Driver := ⟨1⟩, IP := "192.168.130.11", HostIP := "192.168.130.1",
       BundleMetadata := sampleBundle }
     ((trace (Start calmWorld libvirtConfig)).drop 13) (by decide)⟩

/-- Claim C7: for every behaviour of the registry and the driver, every result
returned by `Stop`, `PowerOff` or `Delete` with a non-empty `Error` has
`Success = false`, and every result with `Success = true` has an empty `Error`
and is returned with a nil error. -/
theorem results_never_healthy_with_error (w : World) :
    (∀ cfg r e, outcome (Stop w cfg) = .returned (r, e) →
      (r.Error ≠ "" → r.Success = false) ∧ (r.Success = true → r.Error = "" ∧ e = none)) ∧
    (∀ cfg r e, outcome (PowerOff w cfg) = .returned (r, e) →
      (r.Error ≠ "" → r.Success = false) ∧ (r.Success = true → r.Error = "" ∧ e = none)) ∧
    (∀ cfg r e, outcome (Delete w cfg) = .returned (r, e) →
      (r.Error ≠ "" → r.Success = false) ∧ (r.Success = true → r.Error = "" ∧ e = none)) := by
  refine ⟨fun cfg r e => ?_, fun cfg r e => ?_, fun cfg r e => ?_⟩
  · have key : post (Stop w cfg) [] (fun o _ => o = .returned (r, e) →
        (r.Error ≠ "" → r.Success = false) ∧ (r.Success = true → r.Error = "" ∧ e = none)) := by
      unfold Stop
      simp only [bind_eq, pure_eq]
      repeat' first
        | with_reducible refine post_withDefer ?_
        | with_reducible refine post_bind_assoc ?_
        | with_reducible refine post_bind_pure ?_
        | with_reducible refine post_bind_emit ?_
        | with_reducible refine post_bind_setMachineLogging (fun _ _ => ?_) ?_
        | with_reducible refine post_bind_deref_some ?_
        | with_reducible refine post_bind_deref_none ?_
        | with_reducible refine post_bind_deref (fun _ _ => ?_) (fun _ => ?_)
        | ((with_reducible refine post_ite_pos ?hc ?_); (case hc => first | assumption | rfl))
        | ((with_reducible refine post_ite_neg ?hc ?_); (case hc => first | assumption | exact Bool.false_ne_true))
        | with_reducible refine post_bind_call2 (fun _ _ => ?_)
        | with_reducible refine post_bind_call (fun _ => ?_)
        | with_reducible refine post_ite (fun _ => ?_) (fun _ => ?_)
        | with_reducible refine post_pure ?_
      all_goals simp only [postD, reduceCtorEq, Outcome.returned.injEq, Prod.mk.injEq, and_imp,
        false_imp_iff, imp_self]
      all_goals intros
      all_goals subst_vars
      all_goals simp_all
    exact key
  · have key : post (PowerOff w cfg) [] (fun o _ => o = .returned (r, e) →
        (r.Error ≠ "" → r.Success = false) ∧ (r.Success = true → r.Error = "" ∧ e = none)) := by
      unfold PowerOff
      simp only [bind_eq, pure_eq]
      repeat' first
        | with_reducible refine post_bind_assoc ?_
        | with_reducible refine post_bind_pure ?_
        | with_reducible refine post_bind_emit ?_
        | with_reducible refine post_bind_deref_some ?_
        | with_reducible refine post_bind_deref_none ?_
        | with_reducible refine post_bind_deref (fun _ _ => ?_) (fun _ => ?_)
        | with_reducible refine post_bind_call2 (fun _ _ => ?_)
        | with_reducible refine post_bind_call (fun _ => ?_)
        | with_reducible refine post_ite (fun _ => ?_) (fun _ => ?_)
        | with_reducible refine post_pure ?_
      all_goals simp only [reduceCtorEq, Outcome.returned.injEq, Prod.mk.injEq, and_imp,
        false_imp_iff, imp_self]
      all_goals intros
      all_goals subst_vars
      all_goals simp_all
    exact key
  · have key : post (Delete w cfg) [] (fun o _ => o = .returned (r, e) →
        (r.Error ≠ "" → r.Success = false) ∧ (r.Success = true → r.Error = "" ∧ e = none)) := by
      unfold Delete
      simp only [bind_eq, pure_eq]
      repeat' first
        | with_reducible refine post_bind_assoc ?_
        | with_reducible refine post_bind_pure ?_
        | with_reducible refine post_bind_emit ?_
        | with_reducible refine post_bind_deref_some ?_
        | with_reducible refine post_bind_deref_none ?_
        | with_reducible refine post_bind_deref (fun _ _ => ?_) (fun _ => ?_)
        | with_reducible refine post_bind_call2 (fun _ _ => ?_)
        | with_reducible refine post_bind_call (fun _ => ?_)
        | with_reducible refine post_ite (fun _ => ?_) (fun _ => ?_)
        | with_reducible refine post_pure ?_
      all_goals simp only [reduceCtorEq, Outcome.returned.injEq, Prod.mk.injEq, and_imp,
        false_imp_iff, imp_self]
      all_goals intros
      all_goals subst_vars
      all_goals simp_all
    exact key

/-- Instance for claim C7: a `Stop` of a name the registry cannot load. -/
theorem results_never_healthy_with_error_witness :
    outcome (Stop calmWorld ⟨"crc", true⟩) =
      .returned ({ Name := "crc", Success := true, State := State.Running, Error := "" }, none) ∧
    outcome (Stop loadFails ⟨"crc", true⟩) =
      .returned ({ Name := "crc", Success := false, Error := "Host does not exist: crc" },
        some "Host does not exist: crc") ∧
    ((("Host does not exist: crc" : String) ≠ "" → false = false) ∧
      (false = true → ("Host does not exist: crc" : String) = "" ∧
        some "Host does not exist: crc" = (none : Option GoError))) :=
  ⟨by decide, by decide,
    (results_never_healthy_with_error loadFails).1 ⟨"crc", true⟩
      { Name := "crc", Success := false, Error := "Host does not exist: crc" }
      (some "Host does not exist: crc") (by decide)⟩

/-- Claim C8: in every `Start` call in which the read of the kubeadmin password
file answers with an error `e`, the call returns `e` together with a result
whose `Error` is `e` and whose cluster-access fields are all empty (the
`ClusterConfig` is the zero value), and no hook, no registry call and no driver
call is made during the call. -/
theorem Start_password_read_failure (w : World) (startConfig : StartConfig)
    (path content : String) (e : GoError)
    (hread : Event.readFile path (content, some e) ∈ trace (Start w startConfig)) :
    outcome (Start w startConfig) =
      .returned ({ Name := startConfig.Name, Error := e, ClusterConfig := {} }, some e) ∧
    ∀ ev ∈ trace (Start w startConfig),
      ev.isDnsHook = false ∧ ev.isRegistryCall = false ∧ ev.isDriverCall = false := by
  have key : post (Start w startConfig) [] (fun o t =>
      Event.readFile path (content, some e) ∈ t →
      o = .returned ({ Name := startConfig.Name, Error := e, ClusterConfig := {} }, some e) ∧
      ∀ ev ∈ t, ev.isDnsHook = false ∧ ev.isRegistryCall = false ∧ ev.isDriverCall = false) := by
    unfold Start createHost
    simp only [bind_eq, pure_eq]
    repeat' first
      | with_reducible refine post_withDefer ?_
      | with_reducible refine post_bind_assoc ?_
      | with_reducible refine post_bind_pure ?_
      | with_reducible refine post_bind_emit ?_
      | with_reducible refine post_bind_goPanic ?_
      | with_reducible refine post_bind_exit ?_
      | with_reducible refine post_bind_setMachineLogging (fun _ _ => ?_) ?_
      | with_reducible refine post_bind_existVM (fun _ _ => ?_)
      | with_reducible refine post_bind_getDriverOptions (fun _ _ => ?_) (fun _ _ => ?_)
      | with_reducible refine post_bind_deref_some ?_
      | with_reducible refine post_bind_deref_none ?_
      | with_reducible refine post_bind_deref (fun _ _ => ?_) (fun _ => ?_)
      | with_reducible refine post_bind_index0 (fun _ _ _ => ?_) (fun _ => ?_)
      | with_reducible refine post_bind_emitIf ?_
      | ((with_reducible refine post_bind_ite_pos ?hc ?_); (case hc => first | assumption | rfl))
      | ((with_reducible refine post_bind_ite_neg ?hc ?_); (case hc => first | assumption | exact Bool.false_ne_true))
      | with_reducible refine post_bind_ite (fun _ => ?_) (fun _ => ?_)
      | with_reducible refine post_bind_call3 (fun _ _ _ => ?_)
      | with_reducible refine post_bind_call2 (fun _ _ => ?_)
      | with_reducible refine post_bind_call (fun _ => ?_)
      | ((with_reducible refine post_ite_pos ?hc ?_); (case hc => first | assumption | rfl))
      | ((with_reducible refine post_ite_neg ?hc ?_); (case hc => first | assumption | exact Bool.false_ne_true))
      | with_reducible refine post_ite (fun _ => ?_) (fun _ => ?_)
      | with_reducible refine post_pure ?_
    all_goals simp only [postD, unset_trace, emit_trace]
    all_goals intro hH
    all_goals simp only [List.nil_append, List.append_assoc,
      List.singleton_append, List.cons_append, List.mem_append, List.mem_cons, List.mem_singleton,
      List.not_mem_nil, or_false, false_or, mem_logSetup, mem_ite_singleton, reduceCtorEq, false_and,
      and_false, Event.readFile.injEq, Prod.mk.injEq] at hH
    all_goals obtain ⟨-, -, rfl⟩ := hH
    all_goals first
      | (exfalso; apply_assumption; rfl)
      | simp_all [Event.isDnsHook, Event.isRegistryCall, Event.isDriverCall, errorText,
          or_imp, forall_and, mem_logSetup]
  exact key hread

/-- Instance for claim C8: the password file is missing. -/
theorem Start_password_read_failure_witness :
    outcome (Start passwordMissing libvirtConfig) =
      .returned ({ Name := "crc", Error := "open kubeadmin-password: no such file" },
        some "open kubeadmin-password: no such file") ∧
    ∀ ev ∈ trace (Start passwordMissing libvirtConfig),
      ev.isDnsHook = false ∧ ev.isRegistryCall = false ∧ ev.isDriverCall = false :=
  Start_password_read_failure passwordMissing libvirtConfig "/b/kubeadmin-password" "" _ (by decide)

/-- Claim C9 fails as stated: when the VM exists and is stopped, the driver
`Start` fails with `start failed` and every later step succeeds, `Start`
returns a result whose `Error` is `start failed` together with a nil error. -/
theorem Start_returns_nil_with_recorded_error :
    outcome (Start driverStartFails libvirtConfig) =
      .returned ({ Name := "crc", Status := "Stopped", Error := "start failed",
                   ClusterConfig := { KubeConfig := "/b/kubeconfig", KubeAdminPass := "secret",
                                      ClusterAPI := "https://console" },
                   KubeletStarted := true }, none) := by
  decide

/-- Claim C9, as amended: when `Start` returns a result `r` with an error `err`,
(i) if the in-guest kubelet activation was reached, `err` is exactly the error
that activation answered, so it is nil whenever the activation succeeded,
whatever was recorded in `r.Error` before;
(ii) a non-nil `err` is the text held by `r.Error` or is the failure to open
the log file (returned before anything is recorded);
(iii) `err` is nil only if the kubelet activation was reached and answered
without error. -/
theorem Start_returned_error_source (w : World) (startConfig : StartConfig) (r : StartResult)
    (err : Option GoError)
    (hret : outcome (Start w startConfig) = .returned (r, err)) :
    (∀ h started e, Event.systemdStart h "kubelet" (started, e) ∈ trace (Start w startConfig) →
      err = e) ∧
    (∀ x, err = some x →
      r.Error = x ∨ Event.openLogfile (some x) ∈ trace (Start w startConfig)) ∧
    (err = none →
      ∃ ev ∈ trace (Start w startConfig), ev.isKubeletStarted = true) := by
  have key : post (Start w startConfig) [] (fun o t => o = .returned (r, err) →
      (∀ h started e, Event.systemdStart h "kubelet" (started, e) ∈ t → err = e) ∧
      (∀ x, err = some x → r.Error = x ∨ Event.openLogfile (some x) ∈ t) ∧
      (err = none → ∃ ev ∈ t, ev.isKubeletStarted = true)) := by
    unfold Start createHost
    simp only [bind_eq, pure_eq]
    repeat' first
      | with_reducible refine post_withDefer ?_
      | with_reducible refine post_bind_assoc ?_
      | with_reducible refine post_bind_pure ?_
      | with_reducible refine post_bind_emit ?_
      | with_reducible refine post_bind_goPanic ?_
      | with_reducible refine post_bind_exit ?_
      | with_reducible refine post_bind_setMachineLogging (fun _ _ => ?_) ?_
      | with_reducible refine post_bind_existVM (fun _ _ => ?_)
      | with_reducible refine post_bind_getDriverOptions (fun _ _ => ?_) (fun _ _ => ?_)
      | with_reducible refine post_bind_deref_some ?_
      | with_reducible refine post_bind_deref_none ?_
      | with_reducible refine post_bind_deref (fun _ _ => ?_) (fun _ => ?_)
      | with_reducible refine post_bind_index0 (fun _ _ _ => ?_) (fun _ => ?_)
      | with_reducible refine post_bind_emitIf ?_
      | ((with_reducible refine post_bind_ite_pos ?hc ?_); (case hc => first | assumption | rfl))
      | ((with_reducible refine post_bind_ite_neg ?hc ?_); (case hc => first | assumption | exact Bool.false_ne_true))
      | with_reducible refine post_bind_ite (fun _ => ?_) (fun _ => ?_)
      | with_reducible refine post_bind_call3 (fun _ _ _ => ?_)
      | with_reducible refine post_bind_call2 (fun _ _ => ?_)
      | with_reducible refine post_bind_call (fun _ => ?_)
      | ((with_reducible refine post_ite_pos ?hc ?_); (case hc => first | assumption | rfl))
      | ((with_reducible refine post_ite_neg ?hc ?_); (case hc => first | assumption | exact Bool.false_ne_true))
      | with_reducible refine post_ite (fun _ => ?_) (fun _ => ?_)
      | with_reducible refine post_pure ?_
    all_goals simp only [postD, unset_trace, emit_trace]
    all_goals intro hH
    all_goals simp only [Outcome.returned.injEq, Prod.mk.injEq, reduceCtorEq] at hH
    all_goals obtain ⟨rfl, rfl⟩ := hH
    all_goals refine ⟨fun h started e hK => ?_, fun x hx => ?_, fun hx => ?_⟩
    all_goals first
      | (simp only [List.nil_append, List.append_assoc, List.singleton_append, List.cons_append,
           List.mem_append, List.mem_cons, List.mem_singleton, List.not_mem_nil, or_false,
           false_or, mem_logSetup, mem_ite_singleton, reduceCtorEq, false_and, and_false,
           Event.systemdStart.injEq, Prod.mk.injEq, true_and] at hK
         done)
      | (simp only [List.nil_append, List.append_assoc, List.singleton_append, List.cons_append,
           List.mem_append, List.mem_cons, List.mem_singleton, List.not_mem_nil, or_false,
           false_or, mem_logSetup, mem_ite_singleton, reduceCtorEq, false_and, and_false,
           Event.systemdStart.injEq, Prod.mk.injEq, true_and] at hK
         exact hK.2.2.symm)
      | (cases hx <;> first
           | exact Or.inl rfl
           | exact Or.inr (by simp)
           | (exfalso; exact Bool.false_ne_true ‹_›)
           | (refine List.any_eq_true.mp ?_
              simp only [List.any_append, List.any_cons, List.any_nil, Event.isKubeletStarted,
                beq_self_eq_true, Bool.or_true, Bool.true_or, Bool.or_false]))
  exact key hret

/-- Instance for claim C9: the driver start fails and the kubelet activation succeeds. -/
theorem Start_returned_error_source_witness :
    (none : Option GoError) = none ∧
    ∃ ev ∈ trace (Start driverStartFails libvirtConfig), ev.isKubeletStarted = true :=
  have h := Start_returned_error_source driverStartFails libvirtConfig
    { Name := "crc", Status := "Stopped", Error := "start failed",
      ClusterConfig := { KubeConfig := "/b/kubeconfig", KubeAdminPass := "secret",
                         ClusterAPI := "https://console" },
      KubeletStarted := true } none (by decide)
  ⟨h.1 ⟨1⟩ true none (by decide), h.2.2 rfl⟩

/-- Claim C10 fails on the code: in every `Start` call in which the registry
`NewHost` or the registry `Create` answers with an error, `createHost` returns
a nil host, and the state read `host.Driver.GetState()` that follows the
recording of the error dereferences it: the call panics instead of returning
a result. -/
theorem Start_creation_failure_panics (w : World) (startConfig : StartConfig)
    (driverName rawDriver : String) (vm : Option Host) (e : GoError)
    (hfail : Event.apiNewHost driverName rawDriver (vm, some e) ∈ trace (Start w startConfig) ∨
      Event.apiCreate vm (some e) ∈ trace (Start w startConfig)) :
    outcome (Start w startConfig) =
      .panicked "invalid memory address or nil pointer dereference" := by
  have key : post (Start w startConfig) [] (fun o t =>
      (Event.apiNewHost driverName rawDriver (vm, some e) ∈ t ∨ Event.apiCreate vm (some e) ∈ t) →
      o = .panicked "invalid memory address or nil pointer dereference") := by
    unfold Start createHost
    simp only [bind_eq, pure_eq]
    repeat' first
      | with_reducible refine post_withDefer ?_
      | with_reducible refine post_bind_assoc ?_
      | with_reducible refine post_bind_pure ?_
      | with_reducible refine post_bind_emit ?_
      | with_reducible refine post_bind_goPanic ?_
      | with_reducible refine post_bind_exit ?_
      | with_reducible refine post_bind_setMachineLogging (fun _ _ => ?_) ?_
      | with_reducible refine post_bind_existVM (fun _ _ => ?_)
      | with_reducible refine post_bind_getDriverOptions (fun _ _ => ?_) (fun _ _ => ?_)
      | with_reducible refine post_bind_deref_some ?_
      | with_reducible refine post_bind_deref_none ?_
      | with_reducible refine post_bind_deref (fun _ _ => ?_) (fun _ => ?_)
      | with_reducible refine post_bind_index0 (fun _ _ _ => ?_) (fun _ => ?_)
      | with_reducible refine post_bind_emitIf ?_
      | ((with_reducible refine post_bind_ite_pos ?hc ?_); (case hc => first | assumption | rfl))
      | ((with_reducible refine post_bind_ite_neg ?hc ?_); (case hc => first | assumption | exact Bool.false_ne_true))
      | with_reducible refine post_bind_ite (fun _ => ?_) (fun _ => ?_)
      | with_reducible refine post_bind_call3 (fun _ _ _ => ?_)
      | with_reducible refine post_bind_call2 (fun _ _ => ?_)
      | with_reducible refine post_bind_call (fun _ => ?_)
      | ((with_reducible refine post_ite_pos ?hc ?_); (case hc => first | assumption | rfl))
      | ((with_reducible refine post_ite_neg ?hc ?_); (case hc => first | assumption | exact Bool.false_ne_true))
      | with_reducible refine post_ite (fun _ => ?_) (fun _ => ?_)
      | with_reducible refine post_pure ?_
    all_goals simp only [postD, unset_trace, emit_trace]
    all_goals intro hH
    all_goals simp only [List.nil_append, List.append_assoc,
      List.singleton_append, List.cons_append, List.mem_append, List.mem_cons, List.mem_singleton,
      List.not_mem_nil, or_false, false_or, mem_logSetup, mem_ite_singleton, reduceCtorEq, false_and,
      and_false, Event.apiNewHost.injEq, Event.apiCreate.injEq, Prod.mk.injEq, or_self] at hH
    all_goals first
      | trivial
      | rfl
      | (exfalso; simp_all; done)
  exact key hfail

/-- Instance for claim C10: the registry cannot build a new host. -/
theorem Start_creation_failure_panics_witness :
    outcome (Start newHostFails libvirtConfig) =
      .panicked "invalid memory address or nil pointer dereference" :=
  Start_creation_failure_panics newHostFails libvirtConfig "libvirt" "libvirt:crc" none
    "driver binary not found" (Or.inl (by decide))

end Machine
